import Mathlib

/-!
Verification development for the episodic few-shot training engine
(`few_shot/models/ProtoNet.py`), the backbone factory
(`classification/backbones/__init__.py`) and the train/val control loop
with resumable checkpointing (`generation/trainval.py`).

Shallow embedding conventions:
* images are atoms of an arbitrary type `Img`; a 5-d tensor of shape
  `(d0, d1, c, h, w)` is modelled by its two leading dimensions plus its
  rows (`c, h, w` never influence the control flow under study);
* Python floats are modelled by `ℚ`; the external numeric kernels
  (the backbone forward, `prototype_distance` from the module
  `few_shot/models/modules/ProtoNet.py`, `F.cross_entropy`, the optimizer
  update and the plateau scheduler update) are opaque parameters bundled
  in `TorchEnv`;
* Python exceptions are values of `PyError`; a function that can raise
  returns `Except PyError _`.
-/

/-- Python exceptions raised by the embedded code.  The shape check in
`val_on_loader` raises `RuntimeError("The dataset is too small for the
current support and query sizes")`; the spec's error taxonomy calls this
condition `EpisodeShapeError`.  A failed `assert` raises `AssertionError`;
the spec's taxonomy calls the factory's channel/pretraining refusal
`ConfigurationError`. -/
inductive PyError where
  | zeroDivisionError
  | runtimeError (msg : String)
  | assertionError
  | valueError
  | fileNotFoundError
  | indexError
deriving DecidableEq, Repr

/-- A 5-d image tensor of shape `(d0, d1, c, h, w)`: `d0` rows of `d1`
images each (`c`,`h`,`w` are omitted since images are atoms). `data` lists
the rows; well-formedness (`Tensor5.wf`) ties `data` to the dimensions. -/
structure Tensor5 (Img : Type) where
  d0 : Nat
  d1 : Nat
  data : List (List Img)
deriving DecidableEq, Repr

/-- The declared dimensions describe the stored rows. -/
def Tensor5.wf {Img : Type} (t : Tensor5 Img) : Prop :=
  t.data.length = t.d0 ∧ ∀ row ∈ t.data, row.length = t.d1

instance {Img : Type} [DecidableEq Img] (t : Tensor5 Img) : Decidable t.wf := by
  unfold Tensor5.wf; infer_instance

/-- Source `tensor.view(d0 * d1, c, h, w)`: flattening the two leading
dimensions concatenates the rows in order (row-major). -/
def flatten5 {Img : Type} (t : Tensor5 Img) : List Img :=
  t.data.flatten

/-- One episode dictionary as consumed by `train_on_loader` /
`val_on_loader`: `support_set` has shape `(ss, nclasses, c, h, w)`,
`query_set` has shape `(qs, nclasses, c, h, w)`, and the metadata fields
`nclasses`, `support_size`, `query_size`, `targets` are the dictionary
entries of the same names. -/
structure Episode (Img : Type) where
  support_set : Tensor5 Img
  query_set : Tensor5 Img
  nclasses : Nat
  support_size : Nat
  query_size : Nat
  targets : List Int
deriving DecidableEq, Repr

/-- The external numeric collaborators of `ProtoNet`, kept opaque:
`embed` is the backbone forward on one image given parameters `P`;
`pd` is `prototype_distance` (module `few_shot/models/modules/ProtoNet.py`,
not part of the three embedded files); `ce` is `F.cross_entropy`;
`opt` is one `loss.backward(); optimizer.step()` parameter update, a
function of the current parameters and of everything the backward graph
reads (flattened support images, flattened query images, support and
query relative labels); `sched` is `ReduceLROnPlateau.step` on the
scheduler state given the monitored value. -/
structure TorchEnv (Img Vec P Sch : Type) where
  embed : P → Img → Vec
  pd : List Vec → List Vec → List Nat → List (List ℚ)
  ce : List (List ℚ) → List Nat → ℚ
  opt : P → List Img → List Img → List Nat → List Nat → P
  sched : Sch → ℚ → Sch

/-- The mutable state of a `ProtoNet` object that the two loader methods
touch: backbone parameters and plateau-scheduler state. -/
structure ProtoNetState (P Sch : Type) where
  params : P
  sched : Sch
deriving DecidableEq, Repr

/-- Source `torch.arange(C).view(1, -1).repeat(n, 1).view(-1)`: the row
`[0, …, C-1]` stacked `n` times and flattened row-major. -/
def relativeLabels (C n : Nat) : List Nat :=
  (List.replicate n (List.range C)).flatten

/-- The `support_relative_labels` vector of an episode (built from the declared
metadata `episode['nclasses']` and `episode['support_size']`). -/
def supportRelLabels {Img : Type} (ep : Episode Img) : List Nat :=
  relativeLabels ep.nclasses ep.support_size

/-- The `query_relative_labels` vector of an episode. -/
def queryRelLabels {Img : Type} (ep : Episode Img) : List Nat :=
  relativeLabels ep.nclasses ep.query_size

/-- Index of the first maximum, auxiliary state: current index, best
index so far, best value so far. -/
def argmaxAux : List ℚ → Nat → Nat → ℚ → Nat
  | [], _, bi, _ => bi
  | x :: xs, i, bi, bv => if bv < x then argmaxAux xs (i + 1) i x else argmaxAux xs (i + 1) bi bv

/-- Source `row.max(-1)[1]` for one logit row: index of the maximal entry. -/
def argmaxIdx : List ℚ → Nat
  | [] => 0
  | x :: xs => argmaxAux xs 1 0 x

/-- Source `float((preds == labels).float().sum())`: number of positions where
the two vectors agree. -/
def matchCount (xs ys : List Nat) : Nat :=
  (xs.zip ys).countP (fun p => p.1 == p.2)

/-- Source `float((preds == labels).float().mean())`: fraction of agreeing
positions. -/
def eqMean (xs ys : List Nat) : ℚ :=
  (matchCount xs ys : ℚ) / ((xs.zip ys).length : ℚ)

/-- The shared forward computation of the train and eval steps:
`support_embeddings = backbone(support_set.view(ss*nclasses, c, h, w))`,
`query_embeddings = backbone(query_set.view(qs*nclasses, c, h, w))`,
`logits = prototype_distance(support_embeddings, query_embeddings,
support_relative_labels)`. -/
def episodeLogits {Img Vec P Sch : Type} (env : TorchEnv Img Vec P Sch) (p : P)
    (ep : Episode Img) : List (List ℚ) :=
  let support_embeddings := (flatten5 ep.support_set).map (env.embed p)
  let query_embeddings := (flatten5 ep.query_set).map (env.embed p)
  env.pd support_embeddings query_embeddings (supportRelLabels ep)

/-- One training step on one episode (`train_on_loader` loop body):
returns the updated parameters, `float(loss)` and the episode's mean
accuracy.  The dictionary reads of `episode["targets"]` (bound to
`absolute_labels` and cloned into `relative_labels`) are dead code in the
source and are reproduced as unused bindings. -/
def trainStep {Img Vec P Sch : Type} (env : TorchEnv Img Vec P Sch) (p : P)
    (ep : Episode Img) : P × ℚ × ℚ :=
  let _absolute_labels := ep.targets
  let _relative_labels := _absolute_labels
  let logits := episodeLogits env p ep
  let loss := env.ce logits (queryRelLabels ep)
  let p2 := env.opt p (flatten5 ep.support_set) (flatten5 ep.query_set)
      (supportRelLabels ep) (queryRelLabels ep)
  let preds := logits.map argmaxIdx
  (p2, loss, eqMean preds (queryRelLabels ep))

/-- Accumulator loop of `train_on_loader`: running `(_loss, _accuracy,
_total)` plus the evolving parameters. -/
def trainAccum {Img Vec P Sch : Type} (env : TorchEnv Img Vec P Sch) :
    List (Episode Img) → P → ℚ → ℚ → Nat → P × ℚ × ℚ × Nat
  | [], p, lossAcc, accAcc, total => (p, lossAcc, accAcc, total)
  | ep :: rest, p, lossAcc, accAcc, total =>
    let r := trainStep env p ep
    trainAccum env rest r.1 (lossAcc + r.2.1) (accAcc + r.2.2) (total + 1)

/-- Method `train_on_loader`: iterate all episodes, then return
`{"train_loss": float(_loss) / _total, "train_accuracy":
100 * float(_accuracy) / _total}` together with the updated model state.
Python's division raises `ZeroDivisionError` when `_total == 0`. -/
def train_on_loader {Img Vec P Sch : Type} (env : TorchEnv Img Vec P Sch)
    (st : ProtoNetState P Sch) (loader : List (Episode Img)) :
    Except PyError (ProtoNetState P Sch × ℚ × ℚ) :=
  let r := trainAccum env loader st.params 0 0 0
  if r.2.2.2 = 0 then .error .zeroDivisionError
  else .ok (⟨r.1, st.sched⟩, r.2.1 / (r.2.2.2 : ℚ), 100 * r.2.2.1 / (r.2.2.2 : ℚ))

/-- The message of the `RuntimeError` raised by the eval-side shape
check. -/
def tooSmallMsg : String :=
  "The dataset is too small for the current support and query sizes"

/-- The per-episode quantities of the eval step before weighting:
raw `float(loss)`, number of correct predictions, and the episode's
total query-sample count `qs * nclasses`. -/
def valEpisodeRaw {Img Vec P Sch : Type} (env : TorchEnv Img Vec P Sch) (p : P)
    (ep : Episode Img) : ℚ × ℚ × Nat :=
  let logits := episodeLogits env p ep
  let loss := env.ce logits (queryRelLabels ep)
  let preds := logits.map argmaxIdx
  (loss, (matchCount preds (queryRelLabels ep) : ℚ), ep.query_set.d0 * ep.query_set.d1)

/-- One eval step on one episode (`val_on_loader` loop body): first the
shape check `ss != episode["support_size"] or qs != episode["query_size"]`
(raising `RuntimeError`), then the shared forward; returns the episode's
contributions `(float(loss) * qs * nclasses, correct count,
qs * nclasses)`.  `ss`/`qs`/`nclasses` are read from the tensor shapes
(with `nclasses` taken from the query tensor, as the source's tuple
unpacking shadows the support one). -/
def valStep {Img Vec P Sch : Type} (env : TorchEnv Img Vec P Sch) (p : P)
    (ep : Episode Img) : Except PyError (ℚ × ℚ × Nat) :=
  let ss := ep.support_set.d0
  let qs := ep.query_set.d0
  let nclasses := ep.query_set.d1
  if ss ≠ ep.support_size ∨ qs ≠ ep.query_size then
    .error (.runtimeError tooSmallMsg)
  else
    let r := valEpisodeRaw env p ep
    .ok (r.1 * ((qs * nclasses : Nat) : ℚ), r.2.1, qs * nclasses)

/-- Accumulator loop of `val_on_loader`: running `(_loss, _accuracy,
_total)`; a raised error aborts the loop. -/
def valAccum {Img Vec P Sch : Type} (env : TorchEnv Img Vec P Sch) (p : P) :
    List (Episode Img) → ℚ → ℚ → Nat → Except PyError (ℚ × ℚ × Nat)
  | [], lossAcc, accAcc, total => .ok (lossAcc, accAcc, total)
  | ep :: rest, lossAcc, accAcc, total =>
    match valStep env p ep with
    | .error e => .error e
    | .ok r => valAccum env p rest (lossAcc + r.1) (accAcc + r.2.1) (total + r.2.2)

/-- Method `val_on_loader` (decorated with `torch.no_grad`): iterate all episodes,
step the scheduler with `_loss / _total`, and return
`{mode_loss: _loss / _total, mode_accuracy: 100 * (_accuracy / _total)}`
together with the updated model state (parameters untouched, scheduler
stepped).  `_loss / _total` raises `ZeroDivisionError` when
`_total == 0`. -/
def val_on_loader {Img Vec P Sch : Type} (env : TorchEnv Img Vec P Sch)
    (st : ProtoNetState P Sch) (loader : List (Episode Img)) :
    Except PyError (ProtoNetState P Sch × ℚ × ℚ) :=
  match valAccum env st.params loader 0 0 0 with
  | .error e => .error e
  | .ok r =>
    if r.2.2 = 0 then .error .zeroDivisionError
    else .ok (⟨st.params, env.sched st.sched (r.1 / (r.2.2 : ℚ))⟩,
              r.1 / (r.2.2 : ℚ), 100 * (r.2.1 / (r.2.2 : ℚ)))

/-- Specification-side sequence of per-episode `(loss, accuracy)` pairs
produced by the training loop, with parameters evolving episode by
episode exactly as in `trainAccum`. -/
def trainSeq {Img Vec P Sch : Type} (env : TorchEnv Img Vec P Sch) :
    P → List (Episode Img) → List (ℚ × ℚ)
  | _, [] => []
  | p, ep :: rest =>
    let r := trainStep env p ep
    (r.2.1, r.2.2) :: trainSeq env r.1 rest

/-- Parameters after the whole training loop. -/
def trainFinal {Img Vec P Sch : Type} (env : TorchEnv Img Vec P Sch) :
    P → List (Episode Img) → P
  | p, [] => p
  | p, ep :: rest => trainFinal env (trainStep env p ep).1 rest

/-! Section: List indexing helpers -/

theorem flatten_replicate_getElem? {α : Type*} (n : Nat) (l : List α) (i : Nat)
    (h : i < n * l.length) :
    (List.replicate n l).flatten[i]? = l[i % l.length]? := by
  induction n generalizing i with
  | zero => rw [Nat.zero_mul] at h; exact absurd h (Nat.not_lt_zero i)
  | succ n ih =>
    rw [List.replicate_succ, List.flatten_cons]
    by_cases hi : i < l.length
    · rw [List.getElem?_append, if_pos hi, Nat.mod_eq_of_lt hi]
    · push_neg at hi
      rw [List.getElem?_append_right hi, ih (i - l.length)
        (by have hsm : (n + 1) * l.length = n * l.length + l.length := by ring
            omega), Nat.mod_eq_sub_mod hi]

theorem flatten_uniform_getElem? {α : Type*} (L : List (List α)) (c : Nat)
    (hrows : ∀ row ∈ L, row.length = c) (i : Nat) (h : i < L.length * c) :
    L.flatten[i]? = L[i / c]?.bind (fun row => row[i % c]?) := by
  induction L generalizing i with
  | nil => rw [List.length_nil, Nat.zero_mul] at h; exact absurd h (Nat.not_lt_zero i)
  | cons r rest ih =>
    have hr : r.length = c := hrows r (List.mem_cons_self r rest)
    have hc : 0 < c := by
      rcases Nat.eq_zero_or_pos c with h0 | h0
      · rw [h0, Nat.mul_zero] at h; exact absurd h (Nat.not_lt_zero i)
      · exact h0
    rw [List.flatten_cons]
    by_cases hi : i < c
    · rw [List.getElem?_append, if_pos (hr ▸ hi), Nat.div_eq_of_lt hi,
        Nat.mod_eq_of_lt hi, List.getElem?_cons_zero, Option.some_bind]
    · push_neg at hi
      have hdec : i = (i - c) + c := (Nat.sub_add_cancel hi).symm
      have hdiv : i / c = (i - c) / c + 1 := by
        conv_lhs => rw [hdec]
        rw [Nat.add_div_right _ hc]
      rw [List.getElem?_append_right (hr ▸ hi), hr, hdiv, Nat.mod_eq_sub_mod hi,
        List.getElem?_cons_succ]
      exact ih (fun row hrow => hrows row (List.mem_cons_of_mem r hrow)) (i - c)
        (by have hsm : (rest.length + 1) * c = rest.length * c + c := by ring
            rw [List.length_cons] at h; omega)

theorem relativeLabels_length (C n : Nat) : (relativeLabels C n).length = n * C := by
  simp [relativeLabels, List.length_flatten, List.map_replicate, List.sum_replicate,
    smul_eq_mul, List.length_range]

theorem relativeLabels_getElem? (C n i : Nat) (h : i < n * C) :
    (relativeLabels C n)[i]? = some (i % C) := by
  have hC : 0 < C := by
    rcases Nat.eq_zero_or_pos C with h0 | h0
    · rw [h0, Nat.mul_zero] at h; exact absurd h (Nat.not_lt_zero i)
    · exact h0
  have hbase := flatten_replicate_getElem? n (List.range C) i
    (by rw [List.length_range]; exact h)
  rw [relativeLabels, hbase, List.length_range,
    List.getElem?_range (Nat.mod_lt i hC)]

/-! Section: C1 -/

/-- C1: for an episode with `n_classes = C`, `support_size = S`,
`query_size = Q` and tensors matching the metadata, the relative label
vectors built by the trainer have length `S*C` (resp. `Q*C`), carry label
`i % C` at position `i` — the class indices `0..C-1` in the order the
`.repeat` tiling produces them — and row `i` of the flattened embedding
batch is the image of shot `i / C` of class column `i % C`, so row `i`
of the embedding batch carries exactly the relative label at position
`i`. -/
theorem relative_labels_positional {Img Vec : Type} (ep : Episode Img)
    (C S Q : Nat)
    (hC : ep.nclasses = C) (hS : ep.support_size = S) (hQ : ep.query_size = Q)
    (hs0 : ep.support_set.d0 = S) (hs1 : ep.support_set.d1 = C)
    (hswf : ep.support_set.wf)
    (hq0 : ep.query_set.d0 = Q) (hq1 : ep.query_set.d1 = C)
    (hqwf : ep.query_set.wf) :
    (supportRelLabels ep).length = S * C ∧
    (queryRelLabels ep).length = Q * C ∧
    (∀ i, i < S * C →
      (supportRelLabels ep)[i]? = some (i % C) ∧
      ∀ (f : Img → Vec),
        ((flatten5 ep.support_set).map f)[i]? =
          (ep.support_set.data[i / C]?.bind fun row => row[i % C]?).map f) ∧
    (∀ i, i < Q * C →
      (queryRelLabels ep)[i]? = some (i % C) ∧
      ∀ (f : Img → Vec),
        ((flatten5 ep.query_set).map f)[i]? =
          (ep.query_set.data[i / C]?.bind fun row => row[i % C]?).map f) := by
  obtain ⟨hslen, hsrows⟩ := hswf
  obtain ⟨hqlen, hqrows⟩ := hqwf
  refine ⟨?_, ?_, ?_, ?_⟩
  · rw [supportRelLabels, hC, hS, relativeLabels_length]
  · rw [queryRelLabels, hC, hQ, relativeLabels_length]
  · intro i hi
    constructor
    · rw [supportRelLabels, hC, hS, relativeLabels_getElem? C S i hi]
    · intro f
      rw [List.getElem?_map, flatten5,
        flatten_uniform_getElem? ep.support_set.data C
          (fun row hrow => (hsrows row hrow).trans hs1) i
          (by rw [hslen, hs0]; exact hi)]
  · intro i hi
    constructor
    · rw [queryRelLabels, hC, hQ, relativeLabels_getElem? C Q i hi]
    · intro f
      rw [List.getElem?_map, flatten5,
        flatten_uniform_getElem? ep.query_set.data C
          (fun row hrow => (hqrows row hrow).trans hq1) i
          (by rw [hqlen, hq0]; exact hi)]

/-- Concrete 2-way, 2-shot, 1-query episode used to instantiate C1. -/
def epC1 : Episode Nat :=
  { support_set := { d0 := 2, d1 := 2, data := [[10, 11], [12, 13]] }
    query_set := { d0 := 1, d1 := 2, data := [[20, 21]] }
    nclasses := 2
    support_size := 2
    query_size := 1
    targets := [7, 9] }

theorem relative_labels_positional_witness :
    (supportRelLabels epC1).length = 2 * 2 ∧
    (supportRelLabels epC1)[3]? = some 1 ∧
    ((flatten5 epC1.support_set).map Nat.succ)[3]? = some 14 :=
  have h := @relative_labels_positional Nat Nat epC1 2 2 1 rfl rfl rfl rfl rfl
    (by constructor <;> decide) rfl rfl (by constructor <;> decide)
  ⟨h.1, (h.2.2.1 3 (by decide)).1, (h.2.2.1 3 (by decide)).2 Nat.succ⟩

/-! Section: Aggregation helpers -/

theorem trainAccum_spec {Img Vec P Sch : Type} (env : TorchEnv Img Vec P Sch) :
    ∀ (eps : List (Episode Img)) (p : P) (lossAcc accAcc : ℚ) (total : Nat),
    trainAccum env eps p lossAcc accAcc total =
      (trainFinal env p eps,
       lossAcc + ((trainSeq env p eps).map Prod.fst).sum,
       accAcc + ((trainSeq env p eps).map (fun r => r.2)).sum,
       total + eps.length) := by
  intro eps
  induction eps with
  | nil => intro p lossAcc accAcc total; simp [trainAccum, trainFinal, trainSeq]
  | cons ep rest ih =>
    intro p lossAcc accAcc total
    simp only [trainAccum, trainFinal, trainSeq, List.map_cons, List.sum_cons,
      List.length_cons, ih, Prod.mk.injEq]
    refine ⟨trivial, by ring, by ring, by omega⟩

theorem valStep_ok {Img Vec P Sch : Type} (env : TorchEnv Img Vec P Sch) (p : P)
    (ep : Episode Img)
    (h1 : ep.support_set.d0 = ep.support_size)
    (h2 : ep.query_set.d0 = ep.query_size) :
    valStep env p ep =
      .ok ((valEpisodeRaw env p ep).1 * ((ep.query_set.d0 * ep.query_set.d1 : Nat) : ℚ),
           (valEpisodeRaw env p ep).2.1,
           ep.query_set.d0 * ep.query_set.d1) := by
  simp [valStep, h1, h2]

theorem valAccum_spec {Img Vec P Sch : Type} (env : TorchEnv Img Vec P Sch) (p : P) :
    ∀ (eps : List (Episode Img)) (lossAcc accAcc : ℚ) (total : Nat),
    (∀ ep ∈ eps, ep.support_set.d0 = ep.support_size ∧ ep.query_set.d0 = ep.query_size) →
    valAccum env p eps lossAcc accAcc total =
      .ok (lossAcc + (eps.map fun ep =>
              (valEpisodeRaw env p ep).1 * ((ep.query_set.d0 * ep.query_set.d1 : Nat) : ℚ)).sum,
           accAcc + (eps.map fun ep => (valEpisodeRaw env p ep).2.1).sum,
           total + (eps.map fun ep => ep.query_set.d0 * ep.query_set.d1).sum) := by
  intro eps
  induction eps with
  | nil => intro lossAcc accAcc total _; simp [valAccum]
  | cons ep rest ih =>
    intro lossAcc accAcc total hshape
    have hhead := hshape ep (List.mem_cons_self ep rest)
    rw [valAccum, valStep_ok env p ep hhead.1 hhead.2]
    simp only [List.map_cons, List.sum_cons]
    rw [ih _ _ _ (fun e he => hshape e (List.mem_cons_of_mem ep he))]
    refine congrArg Except.ok ?_
    simp only [Prod.mk.injEq]
    refine ⟨by ring, by ring, by omega⟩

/-! Section: C2 -/

/-- C2: the train-epoch metrics are the unweighted arithmetic means of
the per-episode loss and per-episode mean accuracy (each episode counts
once), while the eval-epoch metrics are sample-weighted: each episode's
loss is multiplied by its total query-sample count `qs * nclasses`,
correct predictions are summed, and both totals are divided by the total
query-sample count of the whole loader. -/
theorem epoch_metric_aggregation {Img Vec P Sch : Type}
    (env : TorchEnv Img Vec P Sch) (st : ProtoNetState P Sch)
    (eps : List (Episode Img))
    (hne : eps ≠ [])
    (hshape : ∀ ep ∈ eps, ep.support_set.d0 = ep.support_size ∧
        ep.query_set.d0 = ep.query_size)
    (hT : (eps.map fun ep => ep.query_set.d0 * ep.query_set.d1).sum ≠ 0) :
    (train_on_loader env st eps).map (fun r => r.2) =
      .ok (((trainSeq env st.params eps).map Prod.fst).sum / (eps.length : ℚ),
           100 * ((trainSeq env st.params eps).map (fun r => r.2)).sum / (eps.length : ℚ)) ∧
    (val_on_loader env st eps).map (fun r => r.2) =
      .ok ((eps.map fun ep =>
              (valEpisodeRaw env st.params ep).1 * ((ep.query_set.d0 * ep.query_set.d1 : Nat) : ℚ)).sum
             / (((eps.map fun ep => ep.query_set.d0 * ep.query_set.d1).sum : Nat) : ℚ),
           100 * ((eps.map fun ep => (valEpisodeRaw env st.params ep).2.1).sum
             / (((eps.map fun ep => ep.query_set.d0 * ep.query_set.d1).sum : Nat) : ℚ))) := by
  constructor
  · rw [train_on_loader, trainAccum_spec]
    simp only [zero_add]
    rw [if_neg (by simpa using hne)]
    rfl
  · rw [val_on_loader, valAccum_spec env st.params eps 0 0 0 hshape]
    simp only [zero_add]
    rw [if_neg hT]
    rfl

instance {ε α : Type*} [DecidableEq ε] [DecidableEq α] : DecidableEq (Except ε α) :=
  fun a b =>
  match a, b with
  | .error e, .error e' =>
    if h : e = e' then isTrue (by rw [h]) else isFalse (fun hh => h (by injection hh))
  | .ok x, .ok y =>
    if h : x = y then isTrue (by rw [h]) else isFalse (fun hh => h (by injection hh))
  | .error _, .ok _ => isFalse (fun hh => Except.noConfusion hh)
  | .ok _, .error _ => isFalse (fun hh => Except.noConfusion hh)

/-- Concrete environment over `Nat` images/embeddings/parameters used by
the witnesses: one logit row `[number of queries]` per query. -/
def envW : TorchEnv Nat Nat Nat Nat :=
  { embed := fun p i => p + i
    pd := fun _ q _ => q.map fun v => [(v : ℚ)]
    ce := fun lg _ => (lg.length : ℚ)
    opt := fun p _ _ _ _ => p + 1
    sched := fun s _ => s + 1 }

/-- Concrete model state for the witnesses. -/
def stW : ProtoNetState Nat Nat := { params := 0, sched := 0 }

/-- A 1-way 1-shot episode with one query sample. -/
def epW1 : Episode Nat :=
  { support_set := { d0 := 1, d1 := 1, data := [[1]] }
    query_set := { d0 := 1, d1 := 1, data := [[2]] }
    nclasses := 1, support_size := 1, query_size := 1, targets := [4] }

/-- A 1-way 1-shot episode with two query samples. -/
def epW2 : Episode Nat :=
  { support_set := { d0 := 1, d1 := 1, data := [[3]] }
    query_set := { d0 := 2, d1 := 1, data := [[4], [5]] }
    nclasses := 1, support_size := 1, query_size := 2, targets := [6] }

theorem epoch_metric_aggregation_witness :
    (train_on_loader envW stW [epW1, epW2]).map (fun r => r.2) =
      .ok (((trainSeq envW stW.params [epW1, epW2]).map Prod.fst).sum / (2 : ℚ),
           100 * ((trainSeq envW stW.params [epW1, epW2]).map (fun r => r.2)).sum / (2 : ℚ)) ∧
    (val_on_loader envW stW [epW1, epW2]).map (fun r => r.2) =
      .ok (([epW1, epW2].map fun ep =>
              (valEpisodeRaw envW stW.params ep).1 * ((ep.query_set.d0 * ep.query_set.d1 : Nat) : ℚ)).sum
             / ((([epW1, epW2].map fun ep => ep.query_set.d0 * ep.query_set.d1).sum : Nat) : ℚ),
           100 * (([epW1, epW2].map fun ep => (valEpisodeRaw envW stW.params ep).2.1).sum
             / ((([epW1, epW2].map fun ep => ep.query_set.d0 * ep.query_set.d1).sum : Nat) : ℚ))) :=
  epoch_metric_aggregation envW stW [epW1, epW2] (by decide)
    (by intro ep hep; fin_cases hep <;> exact ⟨rfl, rfl⟩) (by decide)

/-! Section: C4 -/

/-- C4: the per-episode loss and logits do not depend on the episode's
absolute labels: two episodes identical in `support_set`, `query_set`,
`nclasses`, `support_size` and `query_size` but with arbitrary `targets`
produce identical train-step and eval-step results. -/
theorem targets_noninterference {Img Vec P Sch : Type}
    (env : TorchEnv Img Vec P Sch) (p : P) (ep1 ep2 : Episode Img)
    (hs : ep1.support_set = ep2.support_set)
    (hq : ep1.query_set = ep2.query_set)
    (hn : ep1.nclasses = ep2.nclasses)
    (hss : ep1.support_size = ep2.support_size)
    (hqs : ep1.query_size = ep2.query_size) :
    episodeLogits env p ep1 = episodeLogits env p ep2 ∧
    trainStep env p ep1 = trainStep env p ep2 ∧
    valStep env p ep1 = valStep env p ep2 := by
  obtain ⟨s1, q1, n1, ss1, qs1, t1⟩ := ep1
  obtain ⟨s2, q2, n2, ss2, qs2, t2⟩ := ep2
  simp only at hs hq hn hss hqs
  subst hs hq hn hss hqs
  exact ⟨rfl, rfl, rfl⟩

/-- Same tensors and metadata as `epW1` but different absolute labels. -/
def epW1' : Episode Nat :=
  { support_set := { d0 := 1, d1 := 1, data := [[1]] }
    query_set := { d0 := 1, d1 := 1, data := [[2]] }
    nclasses := 1, support_size := 1, query_size := 1, targets := [99] }

theorem targets_noninterference_witness :
    epW1.targets ≠ epW1'.targets ∧
    trainStep envW 0 epW1 = trainStep envW 0 epW1' ∧
    valStep envW 0 epW1 = valStep envW 0 epW1' :=
  ⟨by decide,
   (targets_noninterference envW 0 epW1 epW1' rfl rfl rfl rfl rfl).2.1,
   (targets_noninterference envW 0 epW1 epW1' rfl rfl rfl rfl rfl).2.2⟩

/-! Section: C6 -/

/-- The only error `valStep` ever raises is the shape-check
`RuntimeError`. -/
theorem valStep_error_eq {Img Vec P Sch : Type} (env : TorchEnv Img Vec P Sch)
    (p : P) (ep : Episode Img) (e : PyError)
    (h : valStep env p ep = .error e) : e = .runtimeError tooSmallMsg := by
  rw [valStep] at h
  split at h
  · exact (Except.error.injEq _ _ ▸ h.symm : e = _).symm ▸ rfl
  · exact absurd h (by simp)

/-- The loop `valAccum` raises the shape-check error as soon as some episode of
the loader violates the check. -/
theorem valAccum_error_of_mismatch {Img Vec P Sch : Type}
    (env : TorchEnv Img Vec P Sch) (p : P) :
    ∀ (eps : List (Episode Img)) (lossAcc accAcc : ℚ) (total : Nat),
    (∃ ep ∈ eps, ep.support_set.d0 ≠ ep.support_size ∨
        ep.query_set.d0 ≠ ep.query_size) →
    valAccum env p eps lossAcc accAcc total = .error (.runtimeError tooSmallMsg) := by
  intro eps
  induction eps with
  | nil => intro _ _ _ hbad; obtain ⟨ep, hmem, _⟩ := hbad; exact absurd hmem (List.not_mem_nil ep)
  | cons ep rest ih =>
    intro lossAcc accAcc total hbad
    by_cases hhead : ep.support_set.d0 ≠ ep.support_size ∨ ep.query_set.d0 ≠ ep.query_size
    · rw [valAccum, valStep, if_pos hhead]
    · push_neg at hhead
      rw [valAccum, valStep_ok env p ep hhead.1 hhead.2]
      refine ih _ _ _ ?_
      obtain ⟨e, hmem, hb⟩ := hbad
      rcases List.mem_cons.mp hmem with heq | hmem'
      · subst heq
        rcases hb with hb | hb
        · exact absurd hhead.1 hb
        · exact absurd hhead.2 hb
      · exact ⟨e, hmem', hb⟩

/-- C6: the eval step validates the realized support/query counts
against the declared `support_size`/`query_size`: a mismatch anywhere in
the loader makes `val_on_loader` fail with the shape-check
`RuntimeError` (the spec's `EpisodeShapeError`); when every episode
matches, no such error is raised (at the step level the check is an
exact iff); and `train_on_loader` never raises that error — the train
step performs no corresponding check. -/
theorem val_shape_check {Img Vec P Sch : Type} (env : TorchEnv Img Vec P Sch)
    (st : ProtoNetState P Sch) (p : P) :
    (∀ ep : Episode Img,
      (ep.support_set.d0 ≠ ep.support_size ∨ ep.query_set.d0 ≠ ep.query_size) ↔
        valStep env p ep = .error (.runtimeError tooSmallMsg)) ∧
    (∀ eps : List (Episode Img),
      (∃ ep ∈ eps, ep.support_set.d0 ≠ ep.support_size ∨
          ep.query_set.d0 ≠ ep.query_size) →
        val_on_loader env st eps = .error (.runtimeError tooSmallMsg)) ∧
    (∀ eps : List (Episode Img),
      (∀ ep ∈ eps, ep.support_set.d0 = ep.support_size ∧
          ep.query_set.d0 = ep.query_size) →
        ∀ msg, val_on_loader env st eps ≠ .error (.runtimeError msg)) ∧
    (∀ (eps : List (Episode Img)) (msg : String),
        train_on_loader env st eps ≠ .error (.runtimeError msg)) := by
  refine ⟨?_, ?_, ?_, ?_⟩
  · intro ep
    constructor
    · intro hbad; rw [valStep, if_pos hbad]
    · intro herr
      by_contra hgood
      push_neg at hgood
      rw [valStep_ok env p ep hgood.1 hgood.2] at herr
      exact absurd herr (by simp)
  · intro eps hbad
    rw [val_on_loader, valAccum_error_of_mismatch env st.params eps 0 0 0 hbad]
  · intro eps hgood msg
    rw [val_on_loader, valAccum_spec env st.params eps 0 0 0 hgood]
    split
    · simp_all
    · split <;> simp
  · intro eps msg
    rw [train_on_loader]
    split <;> simp

/-- Episode whose realized support count (2) differs from its declared
`support_size` (1). -/
def epBad : Episode Nat :=
  { support_set := { d0 := 2, d1 := 1, data := [[1], [2]] }
    query_set := { d0 := 1, d1 := 1, data := [[3]] }
    nclasses := 1, support_size := 1, query_size := 1, targets := [0] }

theorem val_shape_check_witness :
    valStep envW 0 epBad = .error (.runtimeError tooSmallMsg) ∧
    val_on_loader envW stW [epW1, epBad] = .error (.runtimeError tooSmallMsg) ∧
    train_on_loader envW stW [epW1, epBad] ≠ .error (.runtimeError tooSmallMsg) :=
  ⟨(val_shape_check envW stW 0).1 epBad |>.mp (by decide),
   (val_shape_check envW stW 0).2.1 [epW1, epBad]
     ⟨epBad, by decide, by decide⟩,
   (val_shape_check envW stW 0).2.2.2 [epW1, epBad] tooSmallMsg⟩

/-! Section: C9 -/

/-- C9: `val_on_loader` mutates no trainable parameters: whenever it
returns, the backbone parameters of the resulting state equal the input
parameters, while the scheduler state is stepped exactly once with the
epoch's mean loss (the returned loss).  Moreover the eval step performs
the same forward computation as the train step: on a shape-conforming
episode its raw loss is the train step's loss (weighted by the episode's
query-sample count). -/
theorem val_preserves_params {Img Vec P Sch : Type}
    (env : TorchEnv Img Vec P Sch) (st : ProtoNetState P Sch)
    (eps : List (Episode Img)) (out : ProtoNetState P Sch × ℚ × ℚ)
    (h : val_on_loader env st eps = .ok out) :
    out.1.params = st.params ∧
    out.1.sched = env.sched st.sched out.2.1 ∧
    ∀ (p : P) (ep : Episode Img),
      ep.support_set.d0 = ep.support_size → ep.query_set.d0 = ep.query_size →
      (valStep env p ep).map (fun r => r.1) =
        .ok ((trainStep env p ep).2.1 * ((ep.query_set.d0 * ep.query_set.d1 : Nat) : ℚ)) := by
  refine ?_
  rw [val_on_loader] at h
  split at h
  · exact absurd h (by simp)
  · split at h
    · exact absurd h (by simp)
    · rw [Except.ok.injEq] at h
      subst h
      refine ⟨rfl, rfl, ?_⟩
      intro p ep h1 h2
      rw [valStep_ok env p ep h1 h2]
      rfl

theorem val_preserves_params_witness :
    ({ params := 0, sched := 1 } : ProtoNetState Nat Nat).params = stW.params ∧
    ({ params := 0, sched := 1 } : ProtoNetState Nat Nat).sched =
      envW.sched stW.sched 1 :=
  have h := val_preserves_params envW stW [epW1]
    ({ params := 0, sched := 1 }, 1, 100)
    (by norm_num [val_on_loader, valAccum, valStep, valEpisodeRaw, episodeLogits,
        envW, stW, epW1, supportRelLabels, queryRelLabels, relativeLabels, flatten5,
        matchCount, argmaxIdx, argmaxAux, List.countP]
        decide)
  ⟨h.1, h.2.1⟩

/-! Section: C10 -/

/-- Shape-consistent episode whose query set holds zero samples
(`qs = 0`, declared `query_size = 0`), so its total query-sample count
is `0`. -/
def epZeroQ : Episode Nat :=
  { support_set := { d0 := 1, d1 := 1, data := [[1]] }
    query_set := { d0 := 0, d1 := 1, data := [] }
    nclasses := 1, support_size := 1, query_size := 0, targets := [0] }

/-- C10 counterexample: a loader yielding one (shape-consistent) episode
still makes `val_on_loader` fail with the division-by-zero error,
because the episode contributes zero query samples; so "for every loader
yielding at least one episode the division is well-defined" is false for
the eval side. -/
theorem val_nonempty_div_zero_cex :
    [epZeroQ] ≠ ([] : List (Episode Nat)) ∧
    epZeroQ.support_set.d0 = epZeroQ.support_size ∧
    epZeroQ.query_set.d0 = epZeroQ.query_size ∧
    val_on_loader envW stW [epZeroQ] = .error PyError.zeroDivisionError :=
  ⟨by decide, rfl, rfl,
   by norm_num [val_on_loader, valAccum, valStep, valEpisodeRaw, episodeLogits,
     envW, stW, epZeroQ, supportRelLabels, queryRelLabels, relativeLabels,
     flatten5, matchCount]⟩

/-- C10 (amended): with zero episodes both epoch loops fail with the
division-by-zero error; a loader with at least one episode makes the
train-side division well-defined, and the eval-side division is
well-defined provided the loader's total query-sample count is positive
(and every episode passes the shape check) — a nonempty loader whose
episodes carry zero query samples still fails with the
division-by-zero error. -/
theorem empty_loader_division {Img Vec P Sch : Type}
    (env : TorchEnv Img Vec P Sch) (st : ProtoNetState P Sch) :
    train_on_loader env st ([] : List (Episode Img)) = .error .zeroDivisionError ∧
    val_on_loader env st ([] : List (Episode Img)) = .error .zeroDivisionError ∧
    (∀ eps : List (Episode Img), eps ≠ [] →
      ∃ out, train_on_loader env st eps = .ok out) ∧
    (∀ eps : List (Episode Img),
      (∀ ep ∈ eps, ep.support_set.d0 = ep.support_size ∧
          ep.query_set.d0 = ep.query_size) →
      (eps.map fun ep => ep.query_set.d0 * ep.query_set.d1).sum ≠ 0 →
      ∃ out, val_on_loader env st eps = .ok out) := by
  refine ⟨rfl, rfl, ?_, ?_⟩
  · intro eps hne
    rw [train_on_loader, trainAccum_spec]
    simp only [zero_add]
    rw [if_neg (by simpa using hne)]
    exact ⟨_, rfl⟩
  · intro eps hgood hT
    rw [val_on_loader, valAccum_spec env st.params eps 0 0 0 hgood]
    simp only [zero_add]
    rw [if_neg hT]
    exact ⟨_, rfl⟩

theorem empty_loader_division_witness :
    (∃ out, train_on_loader envW stW [epW1] = .ok out) ∧
    (∃ out, val_on_loader envW stW [epW1] = .ok out) :=
  ⟨(empty_loader_division envW stW).2.2.1 [epW1] (by decide),
   (empty_loader_division envW stW).2.2.2 [epW1]
     (by intro ep hep; fin_cases hep; exact ⟨rfl, rfl⟩) (by decide)⟩

/-! Section: Backbone factory (`classification/backbones/__init__.py`) -/

/-- Configuration of one `torch.nn.Conv2d` layer plus the provenance of
its weights: `fromPretrained` is true when the layer still carries
weights loaded from a pretrained checkpoint, false when it is freshly
initialized. -/
structure Conv2dCfg where
  in_channels : Nat
  out_channels : Nat
  kernel : Nat × Nat
  stride : Nat × Nat
  padding : Nat × Nat
  bias : Bool
  fromPretrained : Bool
deriving DecidableEq, Repr

/-- Configuration of one `torch.nn.Linear` layer with weight
provenance. -/
structure LinearCfg where
  in_features : Nat
  out_features : Nat
  fromPretrained : Bool
deriving DecidableEq, Repr

/-- Interface model of a torchvision residual network: the first
convolution `conv1`, the remainder of the stack (opaque; only its weight
provenance is tracked), and the classifier head `fc`.  `variant`
distinguishes `resnet18` from `resnet50`. -/
structure ResNetModel where
  variant : Nat
  conv1 : Conv2dCfg
  trunkPretrained : Bool
  fc : LinearCfg
deriving DecidableEq, Repr

/-- Model of `torchvision.models.resnet18(pretrained=...)`: 3-channel
7×7-stride-2 first convolution, 512-feature head. -/
def torchvision_resnet18 (pretrained : Bool) : ResNetModel :=
  { variant := 18
    conv1 := { in_channels := 3, out_channels := 64, kernel := (7, 7),
               stride := (2, 2), padding := (3, 3), bias := false,
               fromPretrained := pretrained }
    trunkPretrained := pretrained
    fc := { in_features := 512, out_features := 1000, fromPretrained := pretrained } }

/-- Model of `torchvision.models.resnet50(pretrained=...)`: same stem,
2048-feature head. -/
def torchvision_resnet50 (pretrained : Bool) : ResNetModel :=
  { variant := 50
    conv1 := { in_channels := 3, out_channels := 64, kernel := (7, 7),
               stride := (2, 2), padding := (3, 3), bias := false,
               fromPretrained := pretrained }
    trunkPretrained := pretrained
    fc := { in_features := 2048, out_features := 1000, fromPretrained := pretrained } }

/-- The model assembled by the `vgg16` branch: the `features` stack
(first convolution `conv0` = `features[0]`, remainder opaque) followed
by the freshly-built GAP/linear head ending in `nclasses` outputs. -/
structure VggModel where
  conv0 : Conv2dCfg
  featuresRestPretrained : Bool
  headOutFeatures : Nat
deriving DecidableEq, Repr

/-- Layer `features[0]` of `torchvision.models.vgg16_bn(pretrained=...)`:
3-channel 3×3-stride-1 convolution (with bias). -/
def vgg16_bn_conv0 (pretrained : Bool) : Conv2dCfg :=
  { in_channels := 3, out_channels := 64, kernel := (3, 3), stride := (1, 1),
    padding := (1, 1), bias := true, fromPretrained := pretrained }

/-- Interface model of `WideResNet(depth, width, nclasses)` from the
`wrn` package: first convolution `conv0` plus opaque remainder. -/
structure WRNModel where
  depth : Nat
  width : Nat
  num_classes : Nat
  conv0 : Conv2dCfg
deriving DecidableEq, Repr

/-- Layer `conv0` of a freshly constructed `WideResNet`: 3-channel 3×3
convolution without bias. -/
def wideResNet_conv0 : Conv2dCfg :=
  { in_channels := 3, out_channels := 16, kernel := (3, 3), stride := (1, 1),
    padding := (1, 1), bias := false, fromPretrained := false }

/-- Interface model of `Resnet12(width, channels, nclasses)`. -/
structure Resnet12Model where
  width : Nat
  channels : Nat
  num_classes : Nat
deriving DecidableEq, Repr

/-- Stride schedule of the 4-stage `Conv4` backbone, selected in
`Conv4.__init__` from `in_size = min(in_w, in_h)` and
`ratio = in_size // 4`. -/
def conv4_strides (in_h in_w : Nat) : List Nat :=
  let in_size := min in_w in_h
  let ratio := in_size / 4
  if ratio ≥ 16 then [2, 2, 2, 2]
  else if ratio ≥ 8 then [1, 2, 2, 2]
  else if ratio ≥ 4 then [1, 2, 2, 1]
  else if ratio ≥ 2 then [1, 2, 1, 1]
  else [1, 1, 1, 1]

/-- The `Conv4` module as built by `Conv4.__init__(in_h, in_w, channels,
output_size, gap)`: stride schedule, fixed channel widths, and the `out`
linear layer whose input features depend on the `gap` flag. -/
structure Conv4Model where
  strides : List Nat
  channels : List Nat
  in_channels : Nat
  gap : Bool
  out : LinearCfg
deriving DecidableEq, Repr

/-- Constructor `Conv4.__init__`. -/
def conv4_init (in_h in_w channels output_size : Nat) (gap : Bool) : Conv4Model :=
  { strides := conv4_strides in_h in_w
    channels := [32, 64, 128, 256]
    in_channels := channels
    gap := gap
    out := { in_features := if gap then 256 else 256 * 4 * 4,
             out_features := output_size, fromPretrained := false } }

/-- The `MLP` module as built by `MLP.__init__`. -/
structure MLPModel where
  ni : Nat
  no : Nat
  nhidden : Nat
  depth : Nat
deriving DecidableEq, Repr

/-- The value returned by `get_backbone`, one variant per architecture
branch. -/
inductive Backbone where
  | resnet (r : ResNetModel)
  | wrn (w : WRNModel)
  | resnet12 (r : Resnet12Model)
  | vgg (v : VggModel)
  | conv4 (c : Conv4Model)
  | mlp (m : MLPModel)
deriving DecidableEq, Repr

/-- The nested `exp_dict["backbone"]` option bag (with the `.get`
defaults `depth=28`, `width=10` used by the `wrn` branch). -/
structure BackboneCfg where
  name : String
  imagenet_pretraining : Bool
  gap : Bool
  depth : Nat
  width : Nat
  hidden_size : Nat
deriving DecidableEq, Repr

/-- The nested `exp_dict["dataset"]` entries read by the factory. -/
structure DatasetCfg where
  channels : Nat
  height : Nat
  width : Nat
deriving DecidableEq, Repr

/-- The `exp_dict` entries read by `get_backbone`. -/
structure ExpDict where
  num_classes : Nat
  backbone : BackboneCfg
  dataset : DatasetCfg
deriving DecidableEq, Repr

/-- Factory `get_backbone(exp_dict)`: string-keyed branching on the architecture
name.  For `resnet18`/`resnet50`: build the torchvision model with the
`imagenet_pretraining` flag, replace `fc` by a fresh
`Linear(num_ftrs, nclasses)`, and if the dataset channel count is not 3,
`assert(not imagenet_pretraining)` (an `AssertionError` when it fails)
then replace `conv1` by a fresh `Conv2d(channels, 64, 7, 2, 3, bias=False)`.
For `wrn`: build `WideResNet` and replace `conv0` when channels ≠ 3.
For `vgg16`: build `vgg16_bn`, assert-and-replace `features[0]` when
channels ≠ 3, then keep only the `features` stack and append a fresh
GAP + linear head ending in `nclasses`.  Unknown names raise
`ValueError`. -/
def get_backbone (exp_dict : ExpDict) : Except PyError Backbone :=
  let nclasses := exp_dict.num_classes
  let backbone_name := exp_dict.backbone.name
  if backbone_name = "resnet18" then
    let backbone := torchvision_resnet18 exp_dict.backbone.imagenet_pretraining
    let num_ftrs := backbone.fc.in_features
    let backbone := { backbone with
      fc := { in_features := num_ftrs, out_features := nclasses, fromPretrained := false } }
    if exp_dict.dataset.channels ≠ 3 then
      if exp_dict.backbone.imagenet_pretraining then .error .assertionError
      else .ok (.resnet { backbone with
        conv1 := { in_channels := exp_dict.dataset.channels, out_channels := 64,
                   kernel := (7, 7), stride := (2, 2), padding := (3, 3),
                   bias := false, fromPretrained := false } })
    else .ok (.resnet backbone)
  else if backbone_name = "resnet50" then
    let backbone := torchvision_resnet50 exp_dict.backbone.imagenet_pretraining
    let num_ftrs := backbone.fc.in_features
    let backbone := { backbone with
      fc := { in_features := num_ftrs, out_features := nclasses, fromPretrained := false } }
    if exp_dict.dataset.channels ≠ 3 then
      if exp_dict.backbone.imagenet_pretraining then .error .assertionError
      else .ok (.resnet { backbone with
        conv1 := { in_channels := exp_dict.dataset.channels, out_channels := 64,
                   kernel := (7, 7), stride := (2, 2), padding := (3, 3),
                   bias := false, fromPretrained := false } })
    else .ok (.resnet backbone)
  else if backbone_name = "wrn" then
    let backbone : WRNModel :=
      { depth := exp_dict.backbone.depth, width := exp_dict.backbone.width,
        num_classes := nclasses, conv0 := wideResNet_conv0 }
    if exp_dict.dataset.channels ≠ 3 then
      .ok (.wrn { backbone with
        conv0 := { in_channels := exp_dict.dataset.channels, out_channels := 16,
                   kernel := (3, 3), stride := (1, 1), padding := (1, 1),
                   bias := false, fromPretrained := false } })
    else .ok (.wrn backbone)
  else if backbone_name = "resnet12" then
    .ok (.resnet12 { width := 1, channels := exp_dict.dataset.channels,
                     num_classes := nclasses })
  else if backbone_name = "vgg16" then
    let conv0 := vgg16_bn_conv0 exp_dict.backbone.imagenet_pretraining
    if exp_dict.dataset.channels ≠ 3 then
      if exp_dict.backbone.imagenet_pretraining then .error .assertionError
      else .ok (.vgg
        { conv0 := { in_channels := exp_dict.dataset.channels, out_channels := 64,
                     kernel := (3, 3), stride := (1, 1), padding := (1, 1),
                     bias := true, fromPretrained := false }
          featuresRestPretrained := exp_dict.backbone.imagenet_pretraining
          headOutFeatures := nclasses })
    else .ok (.vgg
      { conv0 := conv0
        featuresRestPretrained := exp_dict.backbone.imagenet_pretraining
        headOutFeatures := nclasses })
  else if backbone_name = "conv4" then
    .ok (.conv4 (conv4_init exp_dict.dataset.height exp_dict.dataset.width
      exp_dict.dataset.channels nclasses exp_dict.backbone.gap))
  else if backbone_name = "mlp" then
    .ok (.mlp { ni := exp_dict.dataset.height * exp_dict.dataset.width *
                  exp_dict.dataset.channels,
                no := nclasses, nhidden := exp_dict.backbone.hidden_size,
                depth := exp_dict.backbone.depth })
  else .error .valueError

/-- The first convolution of a constructed backbone (the layer the
channel-adaptation step replaces). -/
def Backbone.firstConv : Backbone → Option Conv2dCfg
  | .resnet r => some r.conv1
  | .wrn w => some w.conv0
  | .vgg v => some v.conv0
  | _ => none

/-- Replace the first convolution of a constructed backbone, leaving
every other component untouched. -/
def Backbone.withFirstConv : Backbone → Conv2dCfg → Backbone
  | .resnet r, c => .resnet { r with conv1 := c }
  | .wrn w, c => .wrn { w with conv0 := c }
  | .vgg v, c => .vgg { v with conv0 := c }
  | b, _ => b

/-- The fresh replacement convolution the factory builds for a
non-3-channel request, per architecture (7×7/stride 2/no bias for the
resnets, 3×3/stride 1/with bias for vgg16). -/
def replacementConv (name : String) (channels : Nat) : Conv2dCfg :=
  if name = "vgg16" then
    { in_channels := channels, out_channels := 64, kernel := (3, 3),
      stride := (1, 1), padding := (1, 1), bias := true, fromPretrained := false }
  else
    { in_channels := channels, out_channels := 64, kernel := (7, 7),
      stride := (2, 2), padding := (3, 3), bias := false, fromPretrained := false }

/-- The stock (unreplaced) first convolution of the three normally
3-channel pretrained architectures. -/
def stockFirstConv (name : String) (pretrained : Bool) : Conv2dCfg :=
  if name = "vgg16" then vgg16_bn_conv0 pretrained
  else (torchvision_resnet18 pretrained).conv1

/-! Section: C5 -/

/-- Specification-side stride schedule, written from the spec's words:
`ratio = min(height, width) // 4`, strides `[2,2,2,2]` if `ratio >= 16`,
`[1,2,2,2]` if `ratio >= 8`, `[1,2,2,1]` if `ratio >= 4`, `[1,2,1,1]`
if `ratio >= 2`, else `[1,1,1,1]`. -/
def specStrideSchedule (height width : Nat) : List Nat :=
  let ratio := min height width / 4
  if ratio ≥ 16 then [2, 2, 2, 2]
  else if ratio ≥ 8 then [1, 2, 2, 2]
  else if ratio ≥ 4 then [1, 2, 2, 1]
  else if ratio ≥ 2 then [1, 2, 1, 1]
  else [1, 1, 1, 1]

/-- C5: for every input height and width, the stride schedule `Conv4`
selects (and the one a `conv4`-configured factory call installs) is the
deterministic schedule the spec states, driven by
`ratio = min(height, width) // 4`. -/
theorem conv4_stride_schedule :
    ∀ (in_h in_w channels output_size : Nat) (gap : Bool),
      conv4_strides in_h in_w = specStrideSchedule in_h in_w ∧
      (conv4_init in_h in_w channels output_size gap).strides =
        specStrideSchedule in_h in_w := by
  intro in_h in_w channels output_size gap
  constructor <;>
    simp only [conv4_init, conv4_strides, specStrideSchedule, Nat.min_comm in_w in_h]

/-! Section: C7 -/

/-- C7: for the normally-3-channel pretrained architectures
(`resnet18`, `resnet50`, `vgg16`): requesting a channel count other
than 3 together with pretrained weights fails with the `assert`'s
`AssertionError` (the spec's `ConfigurationError`); with pretraining
disabled the factory produces exactly the 3-channel construction with
only its first convolution swapped for a freshly-initialized layer of
the requested input channel count; with 3 channels the stock first
convolution is kept.  The replacement layer's input channel count
matches the request and its weights are fresh, never pretrained. -/
theorem pretrained_channel_policy (cfg : ExpDict)
    (hname : cfg.backbone.name = "resnet18" ∨ cfg.backbone.name = "resnet50" ∨
      cfg.backbone.name = "vgg16") :
    (cfg.dataset.channels ≠ 3 → cfg.backbone.imagenet_pretraining = true →
      get_backbone cfg = .error .assertionError) ∧
    (cfg.dataset.channels ≠ 3 → cfg.backbone.imagenet_pretraining = false →
      get_backbone cfg =
        (get_backbone { cfg with dataset := { cfg.dataset with channels := 3 } }).map
          (fun b => b.withFirstConv
            (replacementConv cfg.backbone.name cfg.dataset.channels))) ∧
    (cfg.dataset.channels = 3 →
      (get_backbone cfg).map Backbone.firstConv =
        .ok (some (stockFirstConv cfg.backbone.name
          cfg.backbone.imagenet_pretraining))) ∧
    (replacementConv cfg.backbone.name cfg.dataset.channels).in_channels =
      cfg.dataset.channels ∧
    (replacementConv cfg.backbone.name cfg.dataset.channels).fromPretrained = false := by
  obtain ⟨nc, ⟨name, pre, gap, dep, wid, hid⟩, ⟨ch, hh, ww⟩⟩ := cfg
  simp only at hname
  rcases hname with h | h | h <;> subst h <;>
    refine ⟨?_, ?_, ?_, ?_, ?_⟩ <;>
    (intros
     simp_all [get_backbone, torchvision_resnet18, torchvision_resnet50,
       vgg16_bn_conv0, replacementConv, stockFirstConv, Backbone.withFirstConv,
       Backbone.firstConv, Except.map])

/-- A `resnet18` request combining 1-channel input with pretrained
weights. -/
def cfgResNetBad : ExpDict :=
  { num_classes := 10
    backbone := { name := "resnet18", imagenet_pretraining := true, gap := false,
                  depth := 28, width := 10, hidden_size := 0 }
    dataset := { channels := 1, height := 32, width := 32 } }

theorem pretrained_channel_policy_witness :
    get_backbone cfgResNetBad = .error PyError.assertionError :=
  (pretrained_channel_policy cfgResNetBad (Or.inl rfl)).1 (by decide) rfl

/-! Section: Checkpoint / resume (`generation/trainval.py`) -/

/-- One entry of `score_list`: the per-epoch `score_dict`, a metric
mapping plus the `epoch` field. -/
structure ScoreRecord where
  epoch : Nat
  metrics : List (String × ℚ)
deriving DecidableEq, Repr

/-- The durable storage of one experiment directory as `trainval` uses
it: the contents of `model.pth` (`none` when the file does not exist)
and of `score_list.pkl`.  The model payload type `M` abstracts
`model.get_state_dict()`. -/
structure Storage (M : Type) where
  model_file : Option M
  score_file : Option (List ScoreRecord)
deriving DecidableEq, Repr

/-- The checkpoint branch of `trainval` (resume policy): if
`score_list.pkl` exists, load the model state from `model.pth`
(`FileNotFoundError` when that file is missing), load the score list,
and set `s_epoch = score_list[-1]['epoch'] + 1` (`IndexError` on an
empty persisted list); otherwise start with an empty score list at
`s_epoch = 0`.  Returns `(model state, score_list, s_epoch)`. -/
def resume {M : Type} (storage : Storage M) (fresh : M) :
    Except PyError (M × List ScoreRecord × Nat) :=
  match storage.score_file with
  | some score_list =>
    match storage.model_file with
    | none => .error .fileNotFoundError
    | some m =>
      match score_list.getLast? with
      | none => .error .indexError
      | some last => .ok (m, score_list, last.epoch + 1)
  | none => .ok (fresh, [], 0)

/-- Source `range(s_epoch, max_epoch)`: the epochs the main loop executes. -/
def epochsRun (s_epoch max_epoch : Nat) : List Nat :=
  List.range' s_epoch (max_epoch - s_epoch)

theorem epochsRun_head (s_epoch max_epoch : Nat) (h : s_epoch < max_epoch) :
    (epochsRun s_epoch max_epoch).head? = some s_epoch := by
  rw [epochsRun]
  obtain ⟨k, hk⟩ : ∃ k, max_epoch - s_epoch = k + 1 :=
    ⟨max_epoch - s_epoch - 1, by omega⟩
  rw [hk, List.range'_succ]
  rfl

/-! Section: C8 -/

/-- C8: if a persisted score history exists (with its model file and a
last entry), the resumed model state is exactly the persisted one and
the first epoch executed is one past the last recorded epoch; if no
score history exists, the run starts with an empty history at epoch 0. -/
theorem resume_policy {M : Type} (storage : Storage M) (fresh : M)
    (max_epoch : Nat) :
    (∀ (sl : List ScoreRecord) (m : M) (last : ScoreRecord),
      storage.score_file = some sl → storage.model_file = some m →
      sl.getLast? = some last →
      resume storage fresh = .ok (m, sl, last.epoch + 1) ∧
      (last.epoch + 1 < max_epoch →
        (epochsRun (last.epoch + 1) max_epoch).head? = some (last.epoch + 1))) ∧
    (storage.score_file = none →
      resume storage fresh = .ok (fresh, [], 0) ∧
      (0 < max_epoch → (epochsRun 0 max_epoch).head? = some 0)) := by
  constructor
  · intro sl m last hsf hmf hlast
    refine ⟨?_, fun hlt => epochsRun_head _ _ hlt⟩
    simp [resume, hsf, hmf, hlast]
  · intro hsf
    refine ⟨?_, fun hlt => epochsRun_head _ _ hlt⟩
    simp [resume, hsf]

/-- A persisted run: model payload `17`, history for epochs 0 and 1. -/
def storageW : Storage Nat :=
  { model_file := some 17
    score_file := some [{ epoch := 0, metrics := [] }, { epoch := 1, metrics := [] }] }

theorem resume_policy_witness :
    resume storageW 0 = .ok (17,
      [{ epoch := 0, metrics := [] }, { epoch := 1, metrics := [] }], 2) ∧
    (epochsRun 2 5).head? = some 2 ∧
    resume ({ model_file := none, score_file := none } : Storage Nat) 0 =
      .ok (0, [], 0) :=
  have h := resume_policy storageW 0 5
  have h2 := resume_policy ({ model_file := none, score_file := none } : Storage Nat) 0 5
  have hx := h.1 [{ epoch := 0, metrics := [] }, { epoch := 1, metrics := [] }] 17
    { epoch := 1, metrics := [] } rfl rfl rfl
  ⟨hx.1, hx.2 (by decide), (h2.2 rfl).1⟩

/-! Section: C3 -/

/-- One atomic durable write performed by the per-epoch persistence step.
Modelled from the spec: the `haven` helpers `hu.torch_save` and
`hu.save_pkl` (external to the three embedded files) each replace one
file's whole content — "never partially written"; the order and the fact
that they are two separate writes come from `trainval` itself
(`hu.torch_save(model_path, ...)` then
`hu.save_pkl(score_list_path, ...)`). -/
inductive CkptWrite (M : Type) where
  | writeModel (m : M)
  | writeScores (h : List ScoreRecord)
deriving DecidableEq, Repr

/-- Apply one atomic write to the durable storage. -/
def applyWrite {M : Type} (st : Storage M) : CkptWrite M → Storage M
  | .writeModel m => { st with model_file := some m }
  | .writeScores h => { st with score_file := some h }

/-- Execute a sequence of writes left to right. -/
def runWrites {M : Type} (st : Storage M) : List (CkptWrite M) → Storage M
  | [] => st
  | w :: ws => runWrites (applyWrite st w) ws

/-- The per-epoch persistence step of `trainval`: first
`hu.torch_save(model_path, model.get_state_dict())`, then
`hu.save_pkl(score_list_path, score_list)`.  An interruption at any
point leaves an arbitrary executed prefix of this sequence. -/
def persistEpochOps {M : Type} (m : M) (scores : List ScoreRecord) :
    List (CkptWrite M) :=
  [.writeModel m, .writeScores scores]

/-- The score history accumulated through epoch `e`: one record per
epoch `0..e` (metric payloads abstracted away). -/
def historyThrough (e : Nat) : List ScoreRecord :=
  (List.range (e + 1)).map (fun k => { epoch := k, metrics := [] })

/-- The storage after epoch `e`'s persistence completed.  The model
payload is abstracted to the number of the epoch whose weights it
holds. -/
def committedStorage (e : Nat) : Storage Nat :=
  { model_file := some e, score_file := some (historyThrough e) }

theorem historyThrough_len (e : Nat) : (historyThrough e).length = e + 1 := by
  simp [historyThrough]

/-- Every prefix of a two-element list is one of three lists. -/
theorem prefixOfPair {α : Type*} {l : List α} {x y : α} (h : l <+: [x, y]) :
    l = [] ∨ l = [x] ∨ l = [x, y] := by
  obtain ⟨t, ht⟩ := h
  match l with
  | [] => exact Or.inl rfl
  | a :: l' =>
    simp only [List.cons_append, List.cons.injEq] at ht
    obtain ⟨ha, ht'⟩ := ht
    subst ha
    match l' with
    | [] => exact Or.inr (Or.inl rfl)
    | b :: l'' =>
      simp only [List.cons_append, List.cons.injEq] at ht'
      obtain ⟨hb, ht''⟩ := ht'
      subst hb
      have : l'' = [] := List.append_eq_nil.mp ht'' |>.1
      subst this
      exact Or.inr (Or.inr rfl)

/-- C3 counterexample: starting from the checkpoint committed at epoch
0, the interruption point after the first of the two persistence writes
of epoch 1 (an executed strict prefix of `persistEpochOps`) leaves a
persisted state that is neither the epoch-0 checkpoint nor the epoch-1
checkpoint: the model file already holds epoch 1's weights while the
score history still reflects epoch 0. -/
theorem checkpoint_atomicity_cex :
    [CkptWrite.writeModel (1 : Nat)] <+: persistEpochOps 1 (historyThrough 1) ∧
    runWrites (committedStorage 0) [CkptWrite.writeModel 1] ≠ committedStorage 0 ∧
    runWrites (committedStorage 0) [CkptWrite.writeModel 1] ≠ committedStorage 1 ∧
    (runWrites (committedStorage 0) [CkptWrite.writeModel 1]).model_file = some 1 ∧
    (runWrites (committedStorage 0) [CkptWrite.writeModel 1]).score_file =
      some (historyThrough 0) :=
  ⟨⟨[CkptWrite.writeScores (historyThrough 1)], rfl⟩, by decide, by decide, rfl, rfl⟩

/-- C3 (amended): an interruption anywhere inside epoch `e+1`'s
persistence step leaves exactly one of three durable states: the intact
epoch-`e` checkpoint, the mixed state (weights at `e+1`, history at
`e`), or the completed epoch-`e+1` checkpoint.  The score history never
runs ahead of the model weights — a resume can never read a history
reflecting epoch `e+1` together with epoch-`e` weights — and the
previously committed state is replaced only by whole new payloads. -/
theorem checkpoint_write_order (e : Nat) (pre : List (CkptWrite Nat))
    (h : pre <+: persistEpochOps (e + 1) (historyThrough (e + 1))) :
    (runWrites (committedStorage e) pre = committedStorage e ∨
     runWrites (committedStorage e) pre =
       { model_file := some (e + 1), score_file := some (historyThrough e) } ∨
     runWrites (committedStorage e) pre = committedStorage (e + 1)) ∧
    ((runWrites (committedStorage e) pre).score_file = some (historyThrough (e + 1)) →
      (runWrites (committedStorage e) pre).model_file = some (e + 1)) := by
  have hlen : historyThrough e ≠ historyThrough (e + 1) := by
    intro hEq
    have := congrArg List.length hEq
    rw [historyThrough_len, historyThrough_len] at this
    omega
  rcases prefixOfPair h with hp | hp | hp <;> subst hp
  · refine ⟨Or.inl rfl, ?_⟩
    intro hsf
    exact absurd ((Option.some.injEq _ _).mp hsf.symm).symm hlen
  · exact ⟨Or.inr (Or.inl rfl), fun hsf =>
      absurd ((Option.some.injEq _ _).mp hsf.symm).symm hlen⟩
  · exact ⟨Or.inr (Or.inr rfl), fun _ => rfl⟩

theorem checkpoint_write_order_witness :
    runWrites (committedStorage 0) [CkptWrite.writeModel 1] = committedStorage 0 ∨
    runWrites (committedStorage 0) [CkptWrite.writeModel 1] =
      { model_file := some 1, score_file := some (historyThrough 0) } ∨
    runWrites (committedStorage 0) [CkptWrite.writeModel 1] = committedStorage 1 :=
  (checkpoint_write_order 0 [CkptWrite.writeModel 1]
    ⟨[CkptWrite.writeScores (historyThrough 1)], rfl⟩).1
